import Mathlib

/-!
# Verification of the S3 FastMCP server's tool and resource layer

Shallow embedding of `src/s3_fast_mcp_server/remote_fastmcp_server.py` and the
tool-dispatch boundary it is registered on.  Object bodies are modelled as
lists of byte values (`Bytes`), Python strings are modelled through their
UTF-8 byte sequences, and the boto3 backend is modelled by explicit
descriptions of each backend call's outcome.
-/

/-- A byte sequence: each element is intended to lie below 256. -/
abbrev Bytes := List Nat

/-! ## Base64 (Python `base64.b64encode` / `b64decode`) -/

/-- The base64 alphabet: sextet value `n` (0..63) to its character. -/
def sextetToChar (n : Nat) : Char :=
  if n < 26 then Char.ofNat (65 + n)
  else if n < 52 then Char.ofNat (97 + (n - 26))
  else if n < 62 then Char.ofNat (48 + (n - 52))
  else if n = 62 then '+'
  else '/'

/-- Inverse of the base64 alphabet: character to sextet value. -/
def charToSextet (c : Char) : Option Nat :=
  let n := c.toNat
  if 65 ≤ n ∧ n ≤ 90 then some (n - 65)
  else if 97 ≤ n ∧ n ≤ 122 then some (n - 97 + 26)
  else if 48 ≤ n ∧ n ≤ 57 then some (n - 48 + 52)
  else if c = '+' then some 62
  else if c = '/' then some 63
  else none

/-- `base64.b64encode`: bytes to base64 characters, with `=` padding. -/
def b64EncodeChars : Bytes → List Char
  | a :: b :: c :: rest =>
    sextetToChar (a / 4) ::
    sextetToChar ((a % 4) * 16 + b / 16) ::
    sextetToChar ((b % 16) * 4 + c / 64) ::
    sextetToChar (c % 64) ::
    b64EncodeChars rest
  | [a, b] =>
    [sextetToChar (a / 4), sextetToChar ((a % 4) * 16 + b / 16),
     sextetToChar ((b % 16) * 4), '=']
  | [a] =>
    [sextetToChar (a / 4), sextetToChar ((a % 4) * 16), '=', '=']
  | [] => []

/-- `base64.b64decode`: base64 characters back to bytes (`none` on bad input). -/
def b64DecodeChars : List Char → Option Bytes
  | c1 :: c2 :: c3 :: c4 :: rest =>
    match charToSextet c1, charToSextet c2 with
    | some w, some x =>
      if c3 = '=' then
        if c4 = '=' then
          if rest = [] then some [w * 4 + x / 16] else none
        else none
      else
        match charToSextet c3 with
        | some y =>
          if c4 = '=' then
            if rest = [] then some [w * 4 + x / 16, (x % 16) * 16 + y / 4] else none
          else
            match charToSextet c4, b64DecodeChars rest with
            | some z, some tail =>
              some ((w * 4 + x / 16) :: ((x % 16) * 16 + y / 4) :: ((y % 4) * 64 + z) :: tail)
            | _, _ => none
        | none => none
    | _, _ => none
  | [] => some []
  | _ => none

/-- The alphabet map is inverted by `charToSextet` on all 64 sextet values. -/
theorem charToSextet_sextetToChar : ∀ n, n < 64 → charToSextet (sextetToChar n) = some n := by
  decide

/-- No alphabet character is the padding character. -/
theorem sextetToChar_ne_pad : ∀ n, n < 64 → sextetToChar n ≠ '=' := by
  decide

/-- Base64 round trip: decoding an encoded byte sequence recovers it exactly. -/
theorem b64_roundtrip : ∀ bs : Bytes, (∀ x ∈ bs, x < 256) →
    b64DecodeChars (b64EncodeChars bs) = some bs
  | [], _ => by simp [b64EncodeChars, b64DecodeChars]
  | [a], h => by
    have ha : a < 256 := h a (by simp)
    have h1 : a / 4 < 64 := by omega
    have h2 : (a % 4) * 16 < 64 := by omega
    simp [b64EncodeChars, b64DecodeChars,
      charToSextet_sextetToChar _ h1, charToSextet_sextetToChar _ h2]
    omega
  | [a, b], h => by
    have ha : a < 256 := h a (by simp)
    have hb : b < 256 := h b (by simp)
    have h1 : a / 4 < 64 := by omega
    have h2 : (a % 4) * 16 + b / 16 < 64 := by omega
    have h3 : (b % 16) * 4 < 64 := by omega
    simp [b64EncodeChars, b64DecodeChars,
      charToSextet_sextetToChar _ h1, charToSextet_sextetToChar _ h2,
      charToSextet_sextetToChar _ h3, sextetToChar_ne_pad _ h3]
    constructor <;> omega
  | a :: b :: c :: rest, h => by
    have ha : a < 256 := h a (by simp)
    have hb : b < 256 := h b (by simp)
    have hc : c < 256 := h c (by simp)
    have ih := b64_roundtrip rest (fun x hx => h x (by simp [hx]))
    have h1 : a / 4 < 64 := by omega
    have h2 : (a % 4) * 16 + b / 16 < 64 := by omega
    have h3 : (b % 16) * 4 + c / 64 < 64 := by omega
    have h4 : c % 64 < 64 := by omega
    simp [b64EncodeChars, b64DecodeChars,
      charToSextet_sextetToChar _ h1, charToSextet_sextetToChar _ h2,
      charToSextet_sextetToChar _ h3, charToSextet_sextetToChar _ h4,
      sextetToChar_ne_pad _ h3, sextetToChar_ne_pad _ h4, ih]
    refine ⟨by omega, by omega, by omega⟩

/-! ## UTF-8 (Python `bytes.decode("utf-8")`, strict and `errors="replace"`) -/

/-- Continuation byte test: `0x80..0xBF`. -/
def contB (c : Nat) : Bool := decide (0x80 ≤ c ∧ c ≤ 0xBF)

/-- Admissible second byte of a multi-byte sequence, given the lead byte
(restricted ranges for `E0`, `ED`, `F0`, `F4` rule out overlong encodings,
surrogates and code points above `U+10FFFF`). -/
def utf8Second (b c : Nat) : Bool :=
  if b = 0xE0 then decide (0xA0 ≤ c ∧ c ≤ 0xBF)
  else if b = 0xED then decide (0x80 ≤ c ∧ c ≤ 0x9F)
  else if b = 0xF0 then decide (0x90 ≤ c ∧ c ≤ 0xBF)
  else if b = 0xF4 then decide (0x80 ≤ c ∧ c ≤ 0x8F)
  else contB c

/-- UTF-8 encoding of U+FFFD, the replacement character. -/
def replChar : Bytes := [0xEF, 0xBF, 0xBD]

/-- Consume one UTF-8 sequence from `b :: rest`: `some (sequence, remaining)`
when the head is a complete valid sequence, `none` otherwise. -/
def utf8Head (b : Nat) (rest : Bytes) : Option (Bytes × Bytes) :=
  if b < 0x80 then some ([b], rest)
  else if 0xC2 ≤ b ∧ b ≤ 0xDF then
    match rest with
    | [] => none
    | c1 :: rest1 => if contB c1 then some ([b, c1], rest1) else none
  else if 0xE0 ≤ b ∧ b ≤ 0xEF then
    match rest with
    | [] => none
    | c1 :: rest1 =>
      if utf8Second b c1 then
        match rest1 with
        | [] => none
        | c2 :: rest2 => if contB c2 then some ([b, c1, c2], rest2) else none
      else none
  else if 0xF0 ≤ b ∧ b ≤ 0xF4 then
    match rest with
    | [] => none
    | c1 :: rest1 =>
      if utf8Second b c1 then
        match rest1 with
        | [] => none
        | c2 :: rest2 =>
          if contB c2 then
            match rest2 with
            | [] => none
            | c3 :: rest3 => if contB c3 then some ([b, c1, c2, c3], rest3) else none
          else none
      else none
  else none

/-- Consume one step of the replacing decoder from `b :: rest`:
`(output, remaining)`.  A complete valid sequence is passed through; a maximal
invalid subpart is replaced by U+FFFD and decoding resumes at the byte that
broke the sequence (or after a lone invalid lead byte). -/
def utf8ReplHead (b : Nat) (rest : Bytes) : Bytes × Bytes :=
  if b < 0x80 then ([b], rest)
  else if 0xC2 ≤ b ∧ b ≤ 0xDF then
    match rest with
    | [] => (replChar, [])
    | c1 :: rest1 => if contB c1 then ([b, c1], rest1) else (replChar, c1 :: rest1)
  else if 0xE0 ≤ b ∧ b ≤ 0xEF then
    match rest with
    | [] => (replChar, [])
    | c1 :: rest1 =>
      if utf8Second b c1 then
        match rest1 with
        | [] => (replChar, [])
        | c2 :: rest2 => if contB c2 then ([b, c1, c2], rest2) else (replChar, c2 :: rest2)
      else (replChar, c1 :: rest1)
  else if 0xF0 ≤ b ∧ b ≤ 0xF4 then
    match rest with
    | [] => (replChar, [])
    | c1 :: rest1 =>
      if utf8Second b c1 then
        match rest1 with
        | [] => (replChar, [])
        | c2 :: rest2 =>
          if contB c2 then
            match rest2 with
            | [] => (replChar, [])
            | c3 :: rest3 => if contB c3 then ([b, c1, c2, c3], rest3) else (replChar, c3 :: rest3)
          else (replChar, c2 :: rest2)
      else (replChar, c1 :: rest1)
  else (replChar, rest)

/-- The replacing decoder always consumes at least the first byte. -/
theorem utf8ReplHead_rem_length (b : Nat) (rest : Bytes) :
    (utf8ReplHead b rest).2.length ≤ rest.length := by
  rcases rest with _ | ⟨c1, _ | ⟨c2, _ | ⟨c3, rest3⟩⟩⟩ <;>
    (simp only [utf8ReplHead]; split_ifs <;> simp <;> omega)

/-- The strict decoder always consumes at least the first byte. -/
theorem utf8Head_rem_length (b : Nat) (rest s rem : Bytes)
    (h : utf8Head b rest = some (s, rem)) : rem.length ≤ rest.length := by
  rcases rest with _ | ⟨c1, _ | ⟨c2, _ | ⟨c3, rest3⟩⟩⟩ <;>
    (simp only [utf8Head] at h; split_ifs at h <;> simp_all <;> omega)

/-- On a valid head sequence the replacing decoder agrees with the strict one. -/
theorem utf8Head_replHead (b : Nat) (rest s rem : Bytes)
    (h : utf8Head b rest = some (s, rem)) : utf8ReplHead b rest = (s, rem) := by
  rcases rest with _ | ⟨c1, _ | ⟨c2, _ | ⟨c3, rest3⟩⟩⟩ <;>
    (simp only [utf8Head] at h; simp only [utf8ReplHead]; split_ifs at h ⊢ <;> simp_all)

/-- A consumed head sequence concatenated with the remainder is the input. -/
theorem utf8Head_append (b : Nat) (rest s rem : Bytes)
    (h : utf8Head b rest = some (s, rem)) : s ++ rem = b :: rest := by
  rcases rest with _ | ⟨c1, _ | ⟨c2, _ | ⟨c3, rest3⟩⟩⟩ <;>
    (simp only [utf8Head] at h; split_ifs at h <;> simp_all <;>
      (rcases h with ⟨h1, h2⟩; subst h1; subst h2; simp))

/-- Python's strict UTF-8 decode succeeds exactly when this returns `true`
(`data.decode("utf-8")` raises `UnicodeDecodeError` otherwise). -/
def validUtf8 : Bytes → Bool
  | [] => true
  | b :: rest =>
    match h : utf8Head b rest with
    | some (_, rem) => validUtf8 rem
    | none => false
termination_by l => l.length
decreasing_by
  simp only [List.length_cons]
  exact Nat.lt_succ_of_le (utf8Head_rem_length _ _ _ _ h)

/-- Python's `data.decode("utf-8", errors="replace")` at the byte level: the
UTF-8 bytes of the decoded string, maximal invalid subparts replaced by
U+FFFD. -/
def utf8ReplaceBytes : Bytes → Bytes
  | [] => []
  | b :: rest =>
    (utf8ReplHead b rest).1 ++ utf8ReplaceBytes (utf8ReplHead b rest).2
termination_by l => l.length
decreasing_by
  simp only [List.length_cons]
  exact Nat.lt_succ_of_le (utf8ReplHead_rem_length _ _)

/-- On a valid UTF-8 byte sequence the replacement decode alters no byte. -/
theorem utf8ReplaceBytes_of_valid :
    ∀ l : Bytes, validUtf8 l = true → utf8ReplaceBytes l = l
  | [], _ => by simp [utf8ReplaceBytes]
  | b :: rest, h => by
    simp only [validUtf8] at h
    cases hh : utf8Head b rest with
    | none => rw [hh] at h; simp at h
    | some p =>
      obtain ⟨s, rem⟩ := p
      rw [hh] at h
      simp only [utf8ReplaceBytes, utf8Head_replHead b rest s rem hh]
      rw [utf8ReplaceBytes_of_valid rem h, utf8Head_append b rest s rem hh]
termination_by l _ => l.length
decreasing_by
  simp only [List.length_cons]
  exact Nat.lt_succ_of_le (utf8Head_rem_length _ _ _ _ hh)

/-! ## Data model: tool results and payloads (spec §3) -/

/-- Payload of a successful tool result.  `text` carries the UTF-8 bytes of a
returned string; `encodedBinary` is the spec's `EncodedBinaryContent` (encoded
bytes, original content type, encoding marker); `structuredMsg` stands for the
structured dictionaries the bucket/object management tools return. -/
inductive Payload where
  | text (bytes : Bytes)
  | encodedBinary (encoded : Bytes) (contentType : String) (marker : String)
  | structuredMsg (message : String)
deriving DecidableEq

/-- `ToolCallResult`: exactly one of Success or Failure. -/
inductive ToolCallResult where
  | success (p : Payload)
  | failure (message : String)
deriving DecidableEq

/-! ## Object store and the `GetObject` / `PutObject` tools

`put_object_tool` and `get_object_tool` from
`src/s3_fast_mcp_server/remote_fastmcp_server.py`.  The S3 backend holding
object bodies is modelled as an association list from (bucket, key) to
(body bytes, content type).  `put_object` prepends (last write wins on
lookup); `get_object` walks the list.  The Python `content: str` argument of
PutObject is modelled by the UTF-8 bytes of that string. -/

/-- Backend object store: (bucket, key) to (body, content type). -/
abbrev S3Store := List ((String × String) × (Bytes × String))

/-- Backend lookup of an object: first match wins. -/
def storeGet : S3Store → String → String → Option (Bytes × String)
  | [], _, _ => none
  | ((b, k), v) :: rest, bucket, key =>
    if b = bucket ∧ k = key then some v else storeGet rest bucket key

/-- `put_object_tool`: `boto3_s3_client.put_object(Bucket=…, Key=…, Body=content,
ContentType=content_type)` stores the content bytes unmodified, then returns the
success dictionary.  No decoding of any kind is applied to `content`. -/
def put_object_tool (st : S3Store) (bucket key : String) (content : Bytes)
    (content_type : String) : S3Store × ToolCallResult :=
  (((bucket, key), (content, content_type)) :: st,
   ToolCallResult.success (Payload.structuredMsg "PutObject succeeded"))

/-- `get_object_tool`: reads the body and returns
`response["Body"].read().decode("utf-8", errors="replace")` — a plain string.
A backend error (such as a missing key) is caught and re-raised as
`ValueError("Failed to get object: …")`, which the dispatch boundary turns
into a failure result. -/
def get_object_tool (st : S3Store) (bucket key : String) : ToolCallResult :=
  match storeGet st bucket key with
  | some (body, _) => ToolCallResult.success (Payload.text (utf8ReplaceBytes body))
  | none => ToolCallResult.failure "Failed to get object: NoSuchKey"

/-! ## Content classification and the `s3://{bucket}/{key}` resource read -/

/-- Modelled from the spec: `S3Resource.is_text_file` lives in
`resources/s3_resource.py`, which is not part of this repository snapshot.
Spec §4.2: classify by a fixed extension allow-list for text (plain text,
markdown, source-like extensions); anything not recognized is binary. -/
def text_extensions : List String :=
  [".txt", ".md", ".log", ".json", ".xml", ".yml", ".yaml", ".csv",
   ".py", ".js", ".html", ".css", ".sh", ".ini", ".cfg"]

/-- Key has the given extension (Python `key.endswith(ext)`). -/
def hasExt (key e : String) : Bool := e.toList.isSuffixOf key.toList

/-- Modelled from the spec: text/binary classification of a key by its
extension (spec §4.2 `classify`). -/
def is_text_file (key : String) : Bool := text_extensions.any (fun e => hasExt key e)

/-- `get_s3_object` resource handler, byte level: given the key and the body
bytes fetched from the backend, return the UTF-8 bytes of the string the
handler returns.  Text-classified keys are strictly UTF-8 decoded (identity on
the bytes when valid); on `UnicodeDecodeError`, and for every binary-classified
key, the handler returns `base64.b64encode(data).decode("utf-8")` instead.
The returned value is a bare string in every branch. -/
def get_s3_object (key : String) (data : Bytes) : Bytes :=
  if is_text_file key then
    if validUtf8 data then data
    else (b64EncodeChars data).map Char.toNat
  else
    (b64EncodeChars data).map Char.toNat

/-- Whether the resource read applied the base64 transport encoding to the
stored body (spec §4.2: binary classification, or text that failed strict
UTF-8 decoding). -/
def resourceEncodingApplied (key : String) (data : Bytes) : Bool :=
  !(is_text_file key && validUtf8 data)

/-! ## `CreateBucket` -/

/-- The bucket-creation request sent to the backend: with or without a
`CreateBucketConfiguration={"LocationConstraint": …}` entry. -/
structure CreateBucketRequest where
  bucket : String
  locationConstraint : Option String
deriving DecidableEq

/-- `create_bucket_tool`, modelled as the request it issues.  `defaultRegion`
is `os.getenv("AWS_REGION", "us-east-1")`; `region or default` treats the
empty string as absent; the branch compares the effective region against the
literal `"us-east-1"`. -/
def create_bucket_tool (defaultRegion bucket region : String) : CreateBucketRequest :=
  let region_name := if region = "" then defaultRegion else region
  if region_name ≠ "us-east-1" then
    { bucket := bucket, locationConstraint := some region_name }
  else
    { bucket := bucket, locationConstraint := none }

/-! ## `DeleteBucket` -/

/-- Kind of a backend error, to state claims about all of them. -/
inductive S3ErrKind where
  | notFound | permission | network | other
deriving DecidableEq

/-- A backend (boto3) error: its kind and its `str(e)` message. -/
structure S3Err where
  kind : S3ErrKind
  msg : String
deriving DecidableEq

/-- Reference to one object version (`{"Key": …, "VersionId": …}`). -/
structure VersionRef where
  key : String
  versionId : String
deriving DecidableEq

/-- One page of a `list_object_versions` paginator: its `DeleteMarkers` and
`Versions` entries. -/
structure VersionPage where
  deleteMarkers : List VersionRef
  versions : List VersionRef
deriving DecidableEq

/-- Description of the backend's behaviour for one `DeleteBucket` call:
the outcome of `head_bucket`, the pages yielded by the `list_objects_v2`
paginator (a page with no `Contents` key is the empty page), the outcome of
the `list_object_versions` pagination (`error` when iterating it raises), and
the outcome of the final `delete_bucket` call.  `delete_objects` calls are
modelled as succeeding. -/
structure S3Backend where
  headOk : Except S3Err Unit
  objectPages : List (List String)
  versionPages : Except S3Err (List VersionPage)
  deleteBucketResult : Except S3Err Unit

/-- A backend call issued by `delete_bucket_tool`, in issue order. -/
inductive S3Op where
  | headBucketOp (bucket : String)
  | deleteObjectsKeys (bucket : String) (keys : List String)
  | deleteObjectsVersions (bucket : String) (refs : List VersionRef)
  | deleteBucketOp (bucket : String)
deriving DecidableEq

/-- The `delete_objects` calls of the current-objects loop: one per page that
has a `Contents` entry. -/
def objectDeleteOps (bucket : String) (pages : List (List String)) : List S3Op :=
  (pages.filter (fun p => decide (p ≠ []))).map
    (fun p => S3Op.deleteObjectsKeys bucket p)

/-- The `delete_objects` calls of the versions loop: one per page with delete
markers or versions, deleting `delete_markers + versions`. -/
def versionDeleteOps (bucket : String) (pages : List VersionPage) : List S3Op :=
  (pages.filter (fun p => decide (p.deleteMarkers ≠ [] ∨ p.versions ≠ []))).map
    (fun p => S3Op.deleteObjectsVersions bucket (p.deleteMarkers ++ p.versions))

/-- `delete_bucket_tool`: result and the trace of backend calls issued.
With `force`, `head_bucket` is tried under a bare `except` that returns the
"does not exist" success; then all `list_objects_v2` pages are batch-deleted;
then the `list_object_versions` loop runs under `try/except: pass`; then
`delete_bucket` is issued, a raised error becoming
`ValueError("Failed to delete bucket: …")` at the dispatch boundary. -/
def delete_bucket_tool (be : S3Backend) (bucket : String) (force : Bool) :
    ToolCallResult × List S3Op :=
  if force then
    match be.headOk with
    | Except.error _ =>
      (ToolCallResult.success
        (Payload.structuredMsg ("Bucket " ++ bucket ++ " does not exist")),
       [S3Op.headBucketOp bucket])
    | Except.ok _ =>
      let objOps := objectDeleteOps bucket be.objectPages
      let verOps := match be.versionPages with
        | Except.error _ => []
        | Except.ok pages => versionDeleteOps bucket pages
      let ops := S3Op.headBucketOp bucket :: (objOps ++ verOps ++ [S3Op.deleteBucketOp bucket])
      match be.deleteBucketResult with
      | Except.ok _ =>
        (ToolCallResult.success
          (Payload.structuredMsg ("Bucket " ++ bucket ++ " deleted")), ops)
      | Except.error e =>
        (ToolCallResult.failure ("Failed to delete bucket: " ++ e.msg), ops)
  else
    match be.deleteBucketResult with
    | Except.ok _ =>
      (ToolCallResult.success
        (Payload.structuredMsg ("Bucket " ++ bucket ++ " deleted")),
       [S3Op.deleteBucketOp bucket])
    | Except.error e =>
      (ToolCallResult.failure ("Failed to delete bucket: " ++ e.msg),
       [S3Op.deleteBucketOp bucket])

/-! ## Tool registry and dispatch (spec §4.3) -/

/-- A JSON-ish argument value. -/
inductive JVal where
  | s (v : String)
  | i (v : Int)
  | b (v : Bool)
deriving DecidableEq

/-- Declared argument types. -/
inductive JTy where
  | string | int | bool
deriving DecidableEq

/-- The type of a value. -/
def JVal.ty : JVal → JTy
  | JVal.s _ => JTy.string
  | JVal.i _ => JTy.int
  | JVal.b _ => JTy.bool

/-- One declared parameter of a tool: name, type, required flag, default. -/
structure ParamSpec where
  pname : String
  ptype : JTy
  required : Bool
  dflt : Option JVal

/-- A registered tool: its name, parameter contract and handler.  The handler
returns `Except`: `error` models an exception raised inside the handler. -/
structure ToolSpec where
  tname : String
  params : List ParamSpec
  handler : List (String × JVal) → Except String Payload

/-- A well-formed tool-call request. -/
structure ToolCallRequest where
  tool : String
  args : List (String × JVal)

/-- Modelled from the spec: tool lookup in the registry (spec §4.3 step 1).
The registry itself lives in the FastMCP library, not in this repository. -/
def lookupTool (reg : List ToolSpec) (n : String) : Option ToolSpec :=
  reg.find? (fun t => t.tname == n)

/-- Find a provided argument by name. -/
def lookupArg (args : List (String × JVal)) (n : String) : Option JVal :=
  (args.find? (fun a => a.fst == n)).map (fun a => a.snd)

/-- Modelled from the spec: argument validation and binding (spec §4.3 steps
2–3): missing required argument and type mismatch are failures; unknown extra
arguments are ignored (lenient policy); defaults fill omitted optionals. -/
def bindParams (params : List ParamSpec) (args : List (String × JVal)) :
    Except String (List (String × JVal)) :=
  match params with
  | [] => Except.ok []
  | p :: ps =>
    match lookupArg args p.pname with
    | some v =>
      if v.ty = p.ptype then
        (bindParams ps args).map (fun r => (p.pname, v) :: r)
      else Except.error ("InvalidArgument: " ++ p.pname)
    | none =>
      if p.required then Except.error ("MissingArgument: " ++ p.pname)
      else
        match p.dflt with
        | some d => (bindParams ps args).map (fun r => (p.pname, d) :: r)
        | none => bindParams ps args

/-- Modelled from the spec: `dispatch` (spec §4.3 steps 1–5), implemented by
the FastMCP library and absent from this repository's sources.  Unknown tool,
argument failure, or a handler exception each become a Failure result; a
handler value becomes a Success result. -/
def dispatch (reg : List ToolSpec) (req : ToolCallRequest) : ToolCallResult :=
  match lookupTool reg req.tool with
  | none => ToolCallResult.failure ("UnknownTool: " ++ req.tool)
  | some t =>
    match bindParams t.params req.args with
    | Except.error m => ToolCallResult.failure m
    | Except.ok bound =>
      match t.handler bound with
      | Except.ok p => ToolCallResult.success p
      | Except.error m =>
        ToolCallResult.failure ("Tool " ++ t.tname ++ " failed: " ++ m)

/-! ## Claims about PutObject / GetObject (C10, C1) -/

/-- Claim C10: PutObject stores the provided content verbatim as the object
body — for every store state, bucket, key, content and content type, the
stored body equals the content exactly; no base64 decoding is applied for any
`content_type` (and the tool accepts no `is_base64` argument at all).  Hence a
client uploading base64 text stores the base64 text itself. -/
theorem putObject_stores_verbatim (st : S3Store) (bucket key : String)
    (content : Bytes) (ct : String) :
    storeGet ((put_object_tool st bucket key content ct).1) bucket key
      = some (content, ct) := by
  simp [put_object_tool, storeGet]

/-- Claim C1 (counterexample): the non-UTF-8 body `[0xFF]` stored under the
`.txt` key is returned by GetObject as the replace-decoded text
`[0xEF, 0xBF, 0xBD]` (U+FFFD), never as an `EncodedBinaryContent` payload,
so the original byte is not recovered. -/
theorem getObject_nonUtf8_not_encodedBinary :
    validUtf8 [0xFF] = false ∧
    get_object_tool ((put_object_tool [] "bkt" "data.txt" [0xFF] "text/plain").1)
        "bkt" "data.txt"
      = ToolCallResult.success (Payload.text [0xEF, 0xBF, 0xBD]) ∧
    ¬ ∃ e c m,
      get_object_tool ((put_object_tool [] "bkt" "data.txt" [0xFF] "text/plain").1)
          "bkt" "data.txt"
        = ToolCallResult.success (Payload.encodedBinary e c m) := by
  have hval : validUtf8 [0xFF] = false := by simp [validUtf8, utf8Head]
  have hget : get_object_tool
      ((put_object_tool [] "bkt" "data.txt" [0xFF] "text/plain").1) "bkt" "data.txt"
      = ToolCallResult.success (Payload.text [0xEF, 0xBF, 0xBD]) := by
    simp [get_object_tool, put_object_tool, storeGet, utf8ReplaceBytes,
      utf8ReplHead, replChar]
  refine ⟨hval, hget, ?_⟩
  rintro ⟨e, c, m, hm⟩
  rw [hget] at hm
  simp at hm

/-- Claim C1 (amended): GetObject on a stored object returns the body decoded
as UTF-8 with invalid sequences replaced by U+FFFD — plain text, not
`EncodedBinaryContent` — so the round trip through put then get is byte-exact
exactly for bodies that are valid UTF-8 (which is every body PutObject itself
can store, its `content` being a string). -/
theorem getObject_put_replace_decode (st : S3Store) (bucket key : String)
    (content : Bytes) (ct : String) :
    get_object_tool ((put_object_tool st bucket key content ct).1) bucket key
      = ToolCallResult.success (Payload.text (utf8ReplaceBytes content)) ∧
    (validUtf8 content = true → utf8ReplaceBytes content = content) := by
  constructor
  · simp [get_object_tool, put_object_tool, storeGet]
  · exact utf8ReplaceBytes_of_valid content

/-- Witness for `getObject_put_replace_decode` at a concrete valid-UTF-8
body. -/
theorem getObject_put_replace_decode_witness :
    get_object_tool ((put_object_tool [] "b" "notes.txt" [104, 105] "text/plain").1)
        "b" "notes.txt"
      = ToolCallResult.success (Payload.text [104, 105]) := by
  have h := getObject_put_replace_decode [] "b" "notes.txt" [104, 105] "text/plain"
  have hv : validUtf8 [104, 105] = true := by simp [validUtf8, utf8Head]
  have h1 := h.1
  rw [h.2 hv] at h1
  exact h1

/-! ## Claims about the resource read path (C6, C5) -/

/-- Claim C6: a resource read of a text-classified key whose bytes are not
valid UTF-8 does not fail for that reason: it returns the base64 encoding of
the original bytes, and decoding that base64 recovers the stored bytes
exactly. -/
theorem resource_text_invalid_utf8_roundtrip (key : String) (data : Bytes)
    (htext : is_text_file key = true) (hinv : validUtf8 data = false)
    (hbytes : ∀ x ∈ data, x < 256) :
    get_s3_object key data = (b64EncodeChars data).map Char.toNat ∧
    b64DecodeChars (b64EncodeChars data) = some data := by
  refine ⟨?_, b64_roundtrip data hbytes⟩
  simp [get_s3_object, htext, hinv]

/-- Witness for `resource_text_invalid_utf8_roundtrip`: the invalid body
`[0xFF, 0x00]` under `notes.txt` is returned as the base64 string `/wA=` and
decodes back to `[0xFF, 0x00]`. -/
theorem resource_text_invalid_utf8_roundtrip_witness :
    is_text_file "notes.txt" = true ∧ validUtf8 [0xFF, 0x00] = false ∧
    get_s3_object "notes.txt" [0xFF, 0x00] = [47, 119, 65, 61] ∧
    b64DecodeChars (b64EncodeChars [0xFF, 0x00]) = some [0xFF, 0x00] := by
  have hv : validUtf8 [0xFF, 0x00] = false := by simp [validUtf8, utf8Head]
  have h := resource_text_invalid_utf8_roundtrip "notes.txt" [0xFF, 0x00]
    (by decide) hv (by decide)
  refine ⟨by decide, hv, ?_, h.2⟩
  rw [h.1]
  decide

/-- Claim C5 (counterexample): no marker distinguishes encoded from plain
payloads of the resource read — the claim that a consumer never has to guess
is false.  Formally: no function of the returned payload can report whether
the base64 transport encoding was applied, because the plain-text body
`"/w=="` and the encoded binary body `[0xFF]` yield the identical payload. -/
theorem resource_no_encoding_marker_cex :
    ¬ ∃ f : Bytes → Bool, ∀ key data,
      f (get_s3_object key data) = resourceEncodingApplied key data := by
  have hte : is_text_file "a.txt" = true := by decide
  have hv1 : validUtf8 [47, 119, 61, 61] = true := by simp [validUtf8, utf8Head]
  have hv2 : validUtf8 [0xFF] = false := by simp [validUtf8, utf8Head]
  have he1 : get_s3_object "a.txt" [47, 119, 61, 61] = [47, 119, 61, 61] := by
    simp [get_s3_object, hte, hv1]
  have he2 : get_s3_object "a.txt" [0xFF] = [47, 119, 61, 61] := by
    simp [get_s3_object, hte, hv2]
    decide
  rintro ⟨f, hf⟩
  have h1 := hf "a.txt" [47, 119, 61, 61]
  have h2 := hf "a.txt" [0xFF]
  rw [he1] at h1
  rw [he2] at h2
  rw [h1] at h2
  simp [resourceEncodingApplied, hte, hv1, hv2] at h2

/-- Claim C5 (amended): the resource read returns a bare string with no
encoding marker; a plain-text payload and a base64-encoded binary payload can
be identical, so whether encoding was applied is not recoverable from the
payload. -/
theorem resource_payload_collision :
    get_s3_object "a.txt" [47, 119, 61, 61] = get_s3_object "a.txt" [0xFF] ∧
    ([47, 119, 61, 61] : Bytes) ≠ [0xFF] ∧
    resourceEncodingApplied "a.txt" [47, 119, 61, 61] = false ∧
    resourceEncodingApplied "a.txt" [0xFF] = true := by
  have hte : is_text_file "a.txt" = true := by decide
  have hv1 : validUtf8 [47, 119, 61, 61] = true := by simp [validUtf8, utf8Head]
  have hv2 : validUtf8 [0xFF] = false := by simp [validUtf8, utf8Head]
  refine ⟨?_, by decide, ?_, ?_⟩
  · have he1 : get_s3_object "a.txt" [47, 119, 61, 61] = [47, 119, 61, 61] := by
      simp [get_s3_object, hte, hv1]
    have he2 : get_s3_object "a.txt" [0xFF] = [47, 119, 61, 61] := by
      simp [get_s3_object, hte, hv2]
      decide
    rw [he1, he2]
  · simp [resourceEncodingApplied, hte, hv1]
  · simp [resourceEncodingApplied, hte, hv2]

/-! ## Claims about CreateBucket (C3) -/

/-- Claim C3 (counterexample): the claim — no location constraint exactly when
the effective target region equals the configured default region, an explicit
constraint equal to the target region otherwise — is false: with configured
default region `eu-west-1` and target region `eu-west-1` (equal to the
default), the request still carries the constraint `eu-west-1`. -/
theorem createBucket_default_region_cex :
    ¬ (∀ d b r : String,
        ((if r = "" then d else r) = d →
          (create_bucket_tool d b r).locationConstraint = none) ∧
        ((if r = "" then d else r) ≠ d →
          (create_bucket_tool d b r).locationConstraint
            = some (if r = "" then d else r))) := by
  intro hcl
  have h := (hcl "eu-west-1" "bkt" "eu-west-1").1 (by simp)
  simp [create_bucket_tool] at h

/-- Claim C3 (amended): the branch compares the effective region against the
literal `us-east-1`, not against the configured default: the request carries
no location constraint exactly when the effective region is `us-east-1`, and
otherwise carries a constraint equal to the effective region. -/
theorem createBucket_location_constraint (d b r : String) :
    (create_bucket_tool d b r).locationConstraint =
      (if (if r = "" then d else r) = "us-east-1" then none
       else some (if r = "" then d else r)) := by
  simp only [create_bucket_tool]
  by_cases h : (if r = "" then d else r) = "us-east-1" <;> simp [h]

/-! ## Claims about DeleteBucket (C4, C9, C7, C8) -/

/-- Claim C4: with `force=true`, a failing existence check (the bucket does
not exist) yields a Success result, at the first call and at a second call on
the same still-absent bucket alike — forced deletion is idempotent. -/
theorem deleteBucket_force_missing_idempotent (be1 be2 : S3Backend) (b : String)
    (e1 e2 : S3Err)
    (h1 : be1.headOk = Except.error e1) (h2 : be2.headOk = Except.error e2) :
    (delete_bucket_tool be1 b true).1
      = ToolCallResult.success
          (Payload.structuredMsg ("Bucket " ++ b ++ " does not exist")) ∧
    (delete_bucket_tool be2 b true).1
      = ToolCallResult.success
          (Payload.structuredMsg ("Bucket " ++ b ++ " does not exist")) := by
  constructor <;> simp [delete_bucket_tool, h1, h2]

/-- Backend state of an absent bucket: `head_bucket` raises 404. -/
def beMissing : S3Backend :=
  { headOk := Except.error { kind := S3ErrKind.notFound, msg := "404 Not Found" },
    objectPages := [], versionPages := Except.ok [],
    deleteBucketResult := Except.ok () }

/-- Witness for `deleteBucket_force_missing_idempotent` on a concrete absent
bucket. -/
theorem deleteBucket_force_missing_idempotent_witness :
    (delete_bucket_tool beMissing "old-bucket" true).1
      = ToolCallResult.success
          (Payload.structuredMsg ("Bucket " ++ "old-bucket" ++ " does not exist")) := by
  exact (deleteBucket_force_missing_idempotent beMissing beMissing "old-bucket"
    { kind := S3ErrKind.notFound, msg := "404 Not Found" }
    { kind := S3ErrKind.notFound, msg := "404 Not Found" } rfl rfl).1

/-- Claim C9: in the `force=true` path, any failure of the existence check —
of any kind, permission and network errors included — returns the
"does not exist" Success result, and no object or bucket deletion is
attempted: the trace holds the head call only. -/
theorem deleteBucket_force_headfail (be : S3Backend) (b : String) (e : S3Err)
    (h : be.headOk = Except.error e) :
    delete_bucket_tool be b true
      = (ToolCallResult.success
           (Payload.structuredMsg ("Bucket " ++ b ++ " does not exist")),
         [S3Op.headBucketOp b]) := by
  simp [delete_bucket_tool, h]

/-- Backend whose existence check fails with a permission error. -/
def bePermErr : S3Backend :=
  { headOk := Except.error { kind := S3ErrKind.permission, msg := "403 Forbidden" },
    objectPages := [["k1"]], versionPages := Except.ok [],
    deleteBucketResult := Except.ok () }

/-- Witness for `deleteBucket_force_headfail` on a permission failure. -/
theorem deleteBucket_force_headfail_witness :
    delete_bucket_tool bePermErr "locked" true
      = (ToolCallResult.success
           (Payload.structuredMsg ("Bucket " ++ "locked" ++ " does not exist")),
         [S3Op.headBucketOp "locked"]) :=
  deleteBucket_force_headfail bePermErr "locked"
    { kind := S3ErrKind.permission, msg := "403 Forbidden" } rfl

/-- Backend in which enumerating object versions raises a network error while
everything else succeeds. -/
def beSwallow : S3Backend :=
  { headOk := Except.ok (), objectPages := [],
    versionPages := Except.error
      { kind := S3ErrKind.network, msg := "connection reset during ListObjectVersions" },
    deleteBucketResult := Except.ok () }

/-- Claim C7 (counterexample): a backend-level network error raised while
enumerating object versions during forced deletion is silently swallowed by
the bare `except: pass` — the call still returns Success and no Failure with
the backend's message is surfaced. -/
theorem versionError_swallowed_cex :
    (delete_bucket_tool beSwallow "logs" true).1
      = ToolCallResult.success
          (Payload.structuredMsg ("Bucket " ++ "logs" ++ " deleted")) := by
  rfl

/-- Claim C7 (amended): backend errors from the final `delete_bucket` call are
surfaced as Failure with the backend message embedded verbatim in
`Failed to delete bucket: …`, for both the forced and the unforced path; but
existence-check failures in the force path become Success, and failures of the
version enumeration are silently ignored. -/
theorem deleteBucket_backend_error_wrapped (be : S3Backend) (b : String)
    (f : Bool) (e : S3Err)
    (hhead : be.headOk = Except.ok ())
    (hdel : be.deleteBucketResult = Except.error e) :
    (delete_bucket_tool be b f).1
      = ToolCallResult.failure ("Failed to delete bucket: " ++ e.msg) := by
  cases f <;> simp [delete_bucket_tool, hhead, hdel]

/-- Backend for which the final bucket deletion is rejected. -/
def beNotEmpty : S3Backend :=
  { headOk := Except.ok (), objectPages := [],
    versionPages := Except.ok [],
    deleteBucketResult := Except.error
      { kind := S3ErrKind.other, msg := "BucketNotEmpty" } }

/-- Witness for `deleteBucket_backend_error_wrapped` on a concrete rejected
deletion. -/
theorem deleteBucket_backend_error_wrapped_witness :
    (delete_bucket_tool beNotEmpty "full" false).1
      = ToolCallResult.failure ("Failed to delete bucket: " ++ "BucketNotEmpty") :=
  deleteBucket_backend_error_wrapped beNotEmpty "full" false
    { kind := S3ErrKind.other, msg := "BucketNotEmpty" } rfl rfl

/-- Claim C8: forced deletion of an existing bucket issues, in order: the
existence check, one batch delete per non-empty page of current objects (all
pages), one batch delete per non-empty page of versions and delete markers
(all pages), and only then the bucket deletion. -/
theorem deleteBucket_force_order (be : S3Backend) (b : String)
    (vpages : List VersionPage)
    (hhead : be.headOk = Except.ok ())
    (hver : be.versionPages = Except.ok vpages) :
    ∃ objOps verOps : List S3Op,
      (delete_bucket_tool be b true).2
        = S3Op.headBucketOp b :: (objOps ++ verOps ++ [S3Op.deleteBucketOp b]) ∧
      (∀ p ∈ be.objectPages, p ≠ [] → S3Op.deleteObjectsKeys b p ∈ objOps) ∧
      (∀ op ∈ objOps, ∃ p ∈ be.objectPages, p ≠ [] ∧ op = S3Op.deleteObjectsKeys b p) ∧
      (∀ vp ∈ vpages, (vp.deleteMarkers ≠ [] ∨ vp.versions ≠ []) →
        S3Op.deleteObjectsVersions b (vp.deleteMarkers ++ vp.versions) ∈ verOps) ∧
      (∀ op ∈ verOps, ∃ vp ∈ vpages,
        op = S3Op.deleteObjectsVersions b (vp.deleteMarkers ++ vp.versions)) := by
  refine ⟨objectDeleteOps b be.objectPages, versionDeleteOps b vpages,
    ?_, ?_, ?_, ?_, ?_⟩
  · cases hdel : be.deleteBucketResult <;>
      simp [delete_bucket_tool, hhead, hver, hdel]
  · intro p hp hne
    unfold objectDeleteOps
    exact List.mem_map.2 ⟨p, List.mem_filter.2 ⟨hp, by simpa using hne⟩, rfl⟩
  · intro op hop
    unfold objectDeleteOps at hop
    obtain ⟨p, hpf, rfl⟩ := List.mem_map.1 hop
    obtain ⟨hp, hne⟩ := List.mem_filter.1 hpf
    exact ⟨p, hp, by simpa using hne, rfl⟩
  · intro vp hvp hne
    unfold versionDeleteOps
    exact List.mem_map.2 ⟨vp, List.mem_filter.2 ⟨hvp, by simpa using hne⟩, rfl⟩
  · intro op hop
    unfold versionDeleteOps at hop
    obtain ⟨vp, hpf, rfl⟩ := List.mem_map.1 hop
    exact ⟨vp, (List.mem_filter.1 hpf).1, rfl⟩

/-- One version page with a delete marker and a version. -/
def vpageW : VersionPage :=
  { deleteMarkers := [{ key := "a.txt", versionId := "v1" }],
    versions := [{ key := "a.txt", versionId := "v0" }] }

/-- Backend of an existing versioned bucket with three object pages. -/
def beFull : S3Backend :=
  { headOk := Except.ok (),
    objectPages := [["a.txt", "b.bin"], [], ["c.txt"]],
    versionPages := Except.ok [vpageW],
    deleteBucketResult := Except.ok () }

/-- Witness for `deleteBucket_force_order` on a concrete populated bucket. -/
theorem deleteBucket_force_order_witness :
    ∃ objOps verOps : List S3Op,
      (delete_bucket_tool beFull "data" true).2
        = S3Op.headBucketOp "data" :: (objOps ++ verOps ++ [S3Op.deleteBucketOp "data"]) ∧
      (∀ p ∈ beFull.objectPages, p ≠ [] → S3Op.deleteObjectsKeys "data" p ∈ objOps) ∧
      (∀ op ∈ objOps, ∃ p ∈ beFull.objectPages, p ≠ [] ∧ op = S3Op.deleteObjectsKeys "data" p) ∧
      (∀ vp ∈ [vpageW], (vp.deleteMarkers ≠ [] ∨ vp.versions ≠ []) →
        S3Op.deleteObjectsVersions "data" (vp.deleteMarkers ++ vp.versions) ∈ verOps) ∧
      (∀ op ∈ verOps, ∃ vp ∈ [vpageW],
        op = S3Op.deleteObjectsVersions "data" (vp.deleteMarkers ++ vp.versions)) :=
  deleteBucket_force_order beFull "data" [vpageW] rfl rfl

/-! ## Claim about the dispatcher (C2) -/

/-- Claim C2: for every well-formed request, `dispatch` returns exactly one
result, Success or Failure; an unknown tool yields an UnknownTool failure, and
an exception raised inside the matched handler is caught and wrapped as a
Failure naming the tool and the cause — nothing propagates past the boundary. -/
theorem dispatch_total (reg : List ToolSpec) (req : ToolCallRequest) :
    ((∃ p, dispatch reg req = ToolCallResult.success p) ∨
     (∃ m, dispatch reg req = ToolCallResult.failure m)) ∧
    (lookupTool reg req.tool = none →
      dispatch reg req = ToolCallResult.failure ("UnknownTool: " ++ req.tool)) ∧
    (∀ t, lookupTool reg req.tool = some t →
      ∀ bound, bindParams t.params req.args = Except.ok bound →
      ∀ m, t.handler bound = Except.error m →
      dispatch reg req
        = ToolCallResult.failure ("Tool " ++ t.tname ++ " failed: " ++ m)) := by
  refine ⟨?_, ?_, ?_⟩
  · cases hd : dispatch reg req with
    | success p => exact Or.inl ⟨p, rfl⟩
    | failure m => exact Or.inr ⟨m, rfl⟩
  · intro h
    unfold dispatch
    rw [h]
  · intro t ht bound hb m hm
    unfold dispatch
    simp only [ht, hb, hm]

/-- A registered tool whose handler always raises. -/
def failingEcho : ToolSpec :=
  { tname := "Echo",
    params := [{ pname := "msg", ptype := JTy.string, required := true, dflt := none }],
    handler := fun _ => Except.error "boom" }

/-- Witness for `dispatch_total`: a handler exception (with an extra unknown
argument supplied) becomes a Failure, and an unknown tool name becomes an
UnknownTool Failure. -/
theorem dispatch_total_witness :
    dispatch [failingEcho]
        { tool := "Echo", args := [("msg", JVal.s "hi"), ("extra", JVal.b true)] }
      = ToolCallResult.failure ("Tool " ++ "Echo" ++ " failed: " ++ "boom") ∧
    dispatch [failingEcho] { tool := "Nope", args := [] }
      = ToolCallResult.failure ("UnknownTool: " ++ "Nope") := by
  constructor
  · exact (dispatch_total [failingEcho]
      { tool := "Echo", args := [("msg", JVal.s "hi"), ("extra", JVal.b true)] }).2.2
      failingEcho rfl [("msg", JVal.s "hi")] rfl "boom" rfl
  · exact (dispatch_total [failingEcho] { tool := "Nope", args := [] }).2.1 rfl
